import Mathlib

/-!
Verification of the HigherGov adapter (src/highergov_server.py): a shallow
embedding of its parameter translation, response normalization and envelope
construction, with theorems settling the specification claims.

Python JSON values are modelled by `JVal`; Python `None` is `JVal.null`.
Records (Python dicts) are association lists with insertion order preserved
and lookups returning the first match, as Python dicts hold unique keys.
Fallible Python code (an attribute access such as `x.get(k)` on a non-dict
`x` raises AttributeError) is modelled with `Except String`.
-/

namespace HG

/-- A Python/JSON value as the adapter sees it. -/
inductive JVal where
  | null
  | bool (b : Bool)
  | num (n : Int)
  | str (s : String)
  | arr (elems : List JVal)
  | obj (fields : List (String × JVal))

/-- A Python dict with string keys, in insertion order. -/
abbrev JObj := List (String × JVal)

/-- Python `is None` identity test (used by line 17 of the source). -/
def JVal.isNull : JVal → Bool
  | .null => true
  | _ => false

/-- Python `isinstance(v, dict)`. -/
def JVal.isObj : JVal → Bool
  | .obj _ => true
  | _ => false

/-- Python truthiness of a JSON value. -/
def JVal.truthy : JVal → Bool
  | .null => false
  | .bool b => b
  | .num n => n != 0
  | .str s => !s.isEmpty
  | .arr l => !l.isEmpty
  | .obj o => !o.isEmpty

/-- Python `a or b` on JSON values. -/
def pyOr (a b : JVal) : JVal := if a.truthy then a else b

/-- The value stored under key `k`, when present. -/
def jfind (o : JObj) (k : String) : Option JVal :=
  (o.find? (fun p => p.1 == k)).map (fun p => p.2)

/-- Python `o.get(k, d)` on a dict: the stored value (even `None`) when the
key is present, else the default. -/
def jgetD (o : JObj) (k : String) (d : JVal) : JVal := (jfind o k).getD d

/-- Python `o.get(k)` on a dict: the stored value or `None`. -/
def jget (o : JObj) (k : String) : JVal := jgetD o k .null

/-- Python `v.get(k)` on an arbitrary value: AttributeError unless a dict. -/
def pyGet (v : JVal) (k : String) : Except String JVal :=
  match v with
  | .obj o => .ok (jget o k)
  | _ => .error "AttributeError"

/-- Python `v.get(k, d)` on an arbitrary value. -/
def pyGetD (v : JVal) (k : String) (d : JVal) : Except String JVal :=
  match v with
  | .obj o => .ok (jgetD o k d)
  | _ => .error "AttributeError"

/-- Python `v[0]`: first element of a list (or first character of a string);
TypeError on anything else, IndexError when empty. -/
def pyIndexZero (v : JVal) : Except String JVal :=
  match v with
  | .arr (x :: _) => .ok x
  | .arr [] => .error "IndexError"
  | .str s => if s.isEmpty then .error "IndexError" else .ok (.str (s.take 1))
  | _ => .error "TypeError"

/-- A caller-supplied optional string argument as the Python value. -/
def optS : Option String → JVal
  | none => .null
  | some s => .str s

/-- A caller-supplied optional integer argument as the Python value. -/
def optI : Option Int → JVal
  | none => .null
  | some n => .num n

/-- Line 17 of `hg_get`: drop every pair whose value is `None` from the
outgoing query parameters. -/
def hg_filter (params : List (String × JVal)) : List (String × JVal) :=
  params.filter (fun p => !p.2.isNull)

/-- `hg_get` lines 17 and 18: drop absent parameters, then set the API key.
No operation passes a parameter named `api_key`, so the dict assignment
appends a fresh key. -/
def hg_params (params : List (String × JVal)) (api_key : String) :
    List (String × JVal) :=
  hg_filter params ++ [("api_key", .str api_key)]

/-! ## Parameter translation, one function per operation

Each `*_query` function is the dict literal the operation passes to
`hg_get`, with the caller's optional arguments as `Option` values.
Operations with a required-filter check are split into a `*_phase1`
returning `Except` — `.error` is the structured early return produced
before any upstream request is made, `.ok` the query parameters. -/

/-- Python `not any([v1, ..., vn])` over the given values. -/
def noneTruthy (vs : List JVal) : Bool := !(vs.any JVal.truthy)

/-- `search_opportunities` lines 67-81: when no filter among captured_date,
posted_date, agency_key, opp_key, search_id is truthy, captured_date
defaults to the current date (`todayStr`); then the query dict is built. -/
def search_opportunities_query (captured_date posted_date : Option String)
    (agency_key : Option Int) (opp_key search_id source_type ordering : Option String)
    (page_number page_size : Int) (todayStr : String) : List (String × JVal) :=
  let captured_date :=
    if noneTruthy [optS captured_date, optS posted_date, optI agency_key,
        optS opp_key, optS search_id]
    then some todayStr else captured_date
  [("captured_date", optS captured_date),
   ("posted_date", optS posted_date),
   ("agency_key", optI agency_key),
   ("opp_key", optS opp_key),
   ("search_id", optS search_id),
   ("source_type", optS source_type),
   ("ordering", pyOr (optS ordering) (.str "-captured_date")),
   ("page_number", .num page_number),
   ("page_size", .num (min page_size 100))]

/-- `search_contracts` lines 164-176: the query dict. -/
def search_contracts_query (naics_code psc_code : Option String)
    (awardee_key : Option Int) (awardee_uei : Option String)
    (awarding_agency_key : Option Int)
    (award_id search_id last_modified_date ordering : Option String)
    (page_number page_size : Int) : List (String × JVal) :=
  [("naics_code", optS naics_code),
   ("psc_code", optS psc_code),
   ("awardee_key", optI awardee_key),
   ("awardee_uei", optS awardee_uei),
   ("awarding_agency_key", optI awarding_agency_key),
   ("award_id", optS award_id),
   ("search_id", optS search_id),
   ("last_modified_date", optS last_modified_date),
   ("ordering", pyOr (optS ordering) (.str "-last_modified_date")),
   ("page_number", .num page_number),
   ("page_size", .num (min page_size 100))]

/-- `search_contracts` lines 161-176: reject with a structured error when no
filter is truthy, else build the query. -/
def search_contracts_phase1 (naics_code psc_code : Option String)
    (awardee_key : Option Int) (awardee_uei : Option String)
    (awarding_agency_key : Option Int)
    (award_id search_id last_modified_date ordering : Option String)
    (page_number page_size : Int) : Except JVal (List (String × JVal)) :=
  if noneTruthy [optS naics_code, optS psc_code, optI awardee_key,
      optS awardee_uei, optI awarding_agency_key, optS award_id,
      optS search_id, optS last_modified_date]
  then .error (.obj [("error", .str "At least one filter parameter is required"),
                     ("contracts", .arr [])])
  else .ok (search_contracts_query naics_code psc_code awardee_key awardee_uei
    awarding_agency_key award_id search_id last_modified_date ordering
    page_number page_size)

/-- `search_grants` lines 249-259: the query dict. -/
def search_grants_query (awardee_key : Option Int)
    (awardee_uei cfda_program_number : Option String)
    (awarding_agency_key : Option Int)
    (search_id last_modified_date ordering : Option String)
    (page_number page_size : Int) : List (String × JVal) :=
  [("awardee_key", optI awardee_key),
   ("awardee_uei", optS awardee_uei),
   ("cfda_program_number", optS cfda_program_number),
   ("awarding_agency_key", optI awarding_agency_key),
   ("search_id", optS search_id),
   ("last_modified_date", optS last_modified_date),
   ("ordering", pyOr (optS ordering) (.str "-last_modified_date")),
   ("page_number", .num page_number),
   ("page_size", .num (min page_size 100))]

/-- `search_grants` lines 246-259: reject when no filter is truthy. -/
def search_grants_phase1 (awardee_key : Option Int)
    (awardee_uei cfda_program_number : Option String)
    (awarding_agency_key : Option Int)
    (search_id last_modified_date ordering : Option String)
    (page_number page_size : Int) : Except JVal (List (String × JVal)) :=
  if noneTruthy [optI awardee_key, optS awardee_uei, optS cfda_program_number,
      optI awarding_agency_key, optS search_id, optS last_modified_date]
  then .error (.obj [("error", .str "At least one filter parameter is required"),
                     ("grants", .arr [])])
  else .ok (search_grants_query awardee_key awardee_uei cfda_program_number
    awarding_agency_key search_id last_modified_date ordering
    page_number page_size)

/-- `search_awardees` lines 317-326: the query dict. There is no
required-filter check and no default filter in this operation. -/
def search_awardees_query (cage_code uei : Option String)
    (awardee_key_parent : Option Int)
    (primary_naics registration_last_update_date ordering : Option String)
    (page_number page_size : Int) : List (String × JVal) :=
  [("cage_code", optS cage_code),
   ("uei", optS uei),
   ("awardee_key_parent", optI awardee_key_parent),
   ("primary_naics", optS primary_naics),
   ("registration_last_update_date", optS registration_last_update_date),
   ("ordering", optS ordering),
   ("page_number", .num page_number),
   ("page_size", .num (min page_size 100))]

/-- `get_awardee_details` lines 417-422: the query dict, page_size fixed to 1. -/
def get_awardee_details_query (awardee_key : Option Int)
    (cage_code uei : Option String) : List (String × JVal) :=
  [("awardee_key", optI awardee_key),
   ("cage_code", optS cage_code),
   ("uei", optS uei),
   ("page_size", .num 1)]

/-- `get_awardee_details` lines 414-422: reject with an error-only object
(before any upstream request) when no identifier is truthy. -/
def get_awardee_details_phase1 (awardee_key : Option Int)
    (cage_code uei : Option String) : Except JVal (List (String × JVal)) :=
  if noneTruthy [optI awardee_key, optS cage_code, optS uei]
  then .error (.obj [("error",
    .str "At least one identifier required: awardee_key, cage_code, or uei")])
  else .ok (get_awardee_details_query awardee_key cage_code uei)

/-- `search_awardees_by_name` lines 541-545: the query dict (`name` is a
required positional argument). -/
def search_awardees_by_name_query (name : String)
    (page_number page_size : Int) : List (String × JVal) :=
  [("clean_name", .str name),
   ("page_number", .num page_number),
   ("page_size", .num (min page_size 100))]

/-- `get_awardee_certifications` lines 599-604: the query dict (this
operation takes no page_number). -/
def get_awardee_certifications_query (cage_code uei primary_naics : Option String)
    (page_size : Int) : List (String × JVal) :=
  [("cage_code", optS cage_code),
   ("uei", optS uei),
   ("primary_naics", optS primary_naics),
   ("page_size", .num (min page_size 100))]

/-- `search_people` lines 667-672: the query dict. -/
def search_people_query (last_name : Option String) (agency_key : Option Int)
    (page_number page_size : Int) : List (String × JVal) :=
  [("last_name", optS last_name),
   ("agency_key", optI agency_key),
   ("page_number", .num page_number),
   ("page_size", .num (min page_size 100))]

/-- `search_contract_vehicles` lines 718-724: the query dict. -/
def search_contract_vehicles_query (vehicle_name : Option String)
    (agency_key : Option Int) (naics_code : Option String)
    (page_number page_size : Int) : List (String × JVal) :=
  [("vehicle_name", optS vehicle_name),
   ("agency_key", optI agency_key),
   ("naics_code", optS naics_code),
   ("page_number", .num page_number),
   ("page_size", .num (min page_size 100))]

/-- `get_documents` lines 763-767: the query dict. -/
def get_documents_query (related_key : String)
    (page_number page_size : Int) : List (String × JVal) :=
  [("related_key", .str related_key),
   ("page_number", .num page_number),
   ("page_size", .num (min page_size 100))]

/-- `search_agencies` lines 802-806: the query dict. -/
def search_agencies_query (agency_key : Option Int)
    (page_number page_size : Int) : List (String × JVal) :=
  [("agency_key", optI agency_key),
   ("page_number", .num page_number),
   ("page_size", .num (min page_size 100))]

/-- `lookup_naics` lines 841-844: the query dict. -/
def lookup_naics_query (naics_code : Option String)
    (page_size : Int) : List (String × JVal) :=
  [("naics_code", optS naics_code),
   ("page_size", .num (min page_size 100))]

/-- `lookup_psc` lines 871-874: the query dict. -/
def lookup_psc_query (psc_code : Option String)
    (page_size : Int) : List (String × JVal) :=
  [("psc_code", optS psc_code),
   ("page_size", .num (min page_size 100))]

/-! ## Response normalization -/

/-- Python `for x in v`: list elements; characters of a string; keys of a
dict; TypeError otherwise. -/
def pyIter (v : JVal) : Except String (List JVal) :=
  match v with
  | .arr l => .ok l
  | .str s => .ok (s.toList.map (fun c => .str (String.mk [c])))
  | .obj o => .ok (o.map (fun p => .str p.1))
  | _ => .error "TypeError"

/-- The guarded extraction `n.get(k) if isinstance(n, dict) else n` used for
object-or-scalar code fields and list elements. -/
def resolveElem (k : String) (n : JVal) : JVal :=
  match n with
  | .obj o => jget o k
  | _ => n

/-- The guarded extraction `v.get(k) if isinstance(v, dict) else None` used
for the parent-company reference. -/
def objGet (v : JVal) (k : String) : JVal :=
  match v with
  | .obj o => jget o k
  | _ => .null

/-- One certification record, lines 440-445 / 616-620: type, description and
the SBA flag read with `bt.get("cert_flag", False)`. -/
def cert_record (o : JObj) : JVal :=
  .obj [("type", jget o "bus_type"),
        ("description", jget o "bus_type_description"),
        ("sba_certified", jgetD o "cert_flag" (.bool false))]

/-- The certification loop of `get_awardee_details` lines 436-450 and
`get_awardee_certifications` lines 611-625: non-dict elements are skipped;
dict elements append a record to the full list and their description to the
SBA-certified bucket when `bt.get("cert_flag")` is truthy, else to the
self-certified bucket. Returns (all, sba_certified, self_certified). -/
def process_certs : List JVal → List JVal × List JVal × List JVal
  | [] => ([], [], [])
  | bt :: rest =>
    let t := process_certs rest
    match bt with
    | .obj o =>
      (cert_record o :: t.1,
       if (jget o "cert_flag").truthy
         then jget o "bus_type_description" :: t.2.1 else t.2.1,
       if (jget o "cert_flag").truthy
         then t.2.2 else jget o "bus_type_description" :: t.2.2)
    | _ => t

/-- The certification loop of `search_awardees` lines 337-344: only the full
list is built there. -/
def search_awardees_certs : List JVal → List JVal
  | [] => []
  | bt :: rest =>
    match bt with
    | .obj o => cert_record o :: search_awardees_certs rest
    | _ => search_awardees_certs rest

/-- `search_opportunities` lines 84-116: one upstream record projected to the
flat opportunity shape. The nested agency, NAICS, PSC and contact fields are
read with an unguarded `.get`, which raises on a non-dict value. -/
def normalize_opportunity (opp : JVal) : Except String JVal := do
  let agency := pyOr (← pyGet opp "agency") (.obj [])
  let naics := pyOr (← pyGet opp "naics_code") (.obj [])
  let psc := pyOr (← pyGet opp "psc_code") (.obj [])
  let contact := pyOr (← pyGet opp "primary_contact_email") (.obj [])
  return .obj [
    ("opp_key", ← pyGet opp "opp_key"),
    ("title", ← pyGet opp "title"),
    ("description", ← pyGet opp "description_text"),
    ("agency_name", ← pyGet agency "agency_name"),
    ("agency_key", ← pyGet agency "agency_key"),
    ("source_type", ← pyGet opp "source_type"),
    ("source_id", ← pyGet opp "source_id"),
    ("posted_date", ← pyGet opp "posted_date"),
    ("captured_date", ← pyGet opp "captured_date"),
    ("due_date", ← pyGet opp "due_date"),
    ("naics_code", ← pyGet naics "naics_code"),
    ("psc_code", ← pyGet psc "psc_code"),
    ("set_aside", ← pyGet opp "set_aside"),
    ("estimated_value_low", ← pyGet opp "val_est_low"),
    ("estimated_value_high", ← pyGet opp "val_est_high"),
    ("place_of_performance", .obj [
      ("state", ← pyGet opp "pop_state"),
      ("city", ← pyGet opp "pop_city"),
      ("zip", ← pyGet opp "pop_zip")]),
    ("contact_name", ← pyGet contact "contact_name"),
    ("contact_email", ← pyGet contact "contact_email"),
    ("contact_phone", ← pyGet contact "contact_phone"),
    ("highergov_url", ← pyGet opp "path"),
    ("source_url", ← pyGet opp "source_path")]

/-- `search_contracts` lines 179-206: one upstream record projected to the
flat contract shape. NAICS and PSC are guarded object-or-scalar extractions;
awardee and awarding_agency are unguarded `.get` accesses. -/
def normalize_contract (c : JVal) : Except String JVal := do
  let awardee := pyOr (← pyGet c "awardee") (.obj [])
  let agency := pyOr (← pyGet c "awarding_agency") (.obj [])
  let naics := pyOr (← pyGet c "naics_code") (.obj [])
  let psc := pyOr (← pyGet c "psc_code") (.obj [])
  return .obj [
    ("contract_key", ← pyGet c "contract_key"),
    ("award_id", ← pyGet c "award_id"),
    ("title", ← pyGet c "title"),
    ("description", ← pyGet c "description"),
    ("awarding_agency", ← pyGet agency "agency_name"),
    ("awardee_name", ← pyGet awardee "clean_name"),
    ("awardee_uei", ← pyGet awardee "uei"),
    ("awardee_cage", ← pyGet awardee "cage_code"),
    ("obligated_amount", ← pyGet c "obligated_amount"),
    ("potential_value", ← pyGet c "potential_value"),
    ("base_and_all_options", ← pyGet c "base_and_all_options_value"),
    ("start_date", ← pyGet c "period_of_performance_start_date"),
    ("end_date", ← pyGet c "period_of_performance_current_end_date"),
    ("naics_code", resolveElem "naics_code" naics),
    ("psc_code", resolveElem "psc_code" psc),
    ("place_of_performance_state", ← pyGet c "place_of_performance_state"),
    ("contract_type", ← pyGet c "type_of_contract"),
    ("set_aside", ← pyGet c "type_of_set_aside"),
    ("last_modified_date", ← pyGet c "last_modified_date"),
    ("highergov_url", ← pyGet c "path")]

/-- `get_documents` lines 770-777: one document record; the download URL is
copied through and a fixed textual note is attached. -/
def normalize_document (doc : JVal) : Except String JVal := do
  return .obj [
    ("filename", ← pyGet doc "filename"),
    ("file_type", ← pyGet doc "file_type"),
    ("file_size", ← pyGet doc "file_size"),
    ("download_url", ← pyGet doc "download_url"),
    ("note", .str "URL expires in 60 minutes")]

/-- Characters stripped by Python `str.strip()` with no argument. -/
def py_strip_list (l : List Char) : List Char :=
  ((l.dropWhile Char.isWhitespace).reverse.dropWhile Char.isWhitespace).reverse

/-- Python `s.strip()`. -/
def py_strip (s : String) : String := .mk (py_strip_list s.toList)

/-- `search_awardees` line 381: the composite contact name,
`f-string joining first and last with one space`.strip() or None. -/
def govt_poc_name (first last : String) : JVal :=
  let s := py_strip (first ++ " " ++ last)
  if s.isEmpty then .null else .str s

/-- `get_awardee_details` lines 428-519: the full awardee projection built
from the first upstream result. Iteration over the nested lists is hoisted
ahead of the record literal; when the record is a dict this coincides with
the source's evaluation order. -/
def normalize_awardee_detail (a : JVal) : Except String JVal := do
  let primary_naics_obj := pyOr (← pyGet a "primary_naics") (.obj [])
  let naics_list := pyOr (← pyGet a "naics_codes") (.arr [])
  let psc_list := pyOr (← pyGet a "psc_codes") (.arr [])
  let bus_type_info := pyOr (← pyGet a "bus_type_info") (.arr [])
  let parent := pyOr (← pyGet a "awardee_key_parent") (.obj [])
  let certs := process_certs (← pyIter bus_type_info)
  let naicsElems ← pyIter naics_list
  let pscElems ← pyIter psc_list
  return .obj [
    ("awardee_key", ← pyGet a "awardee_key"),
    ("name", ← pyGet a "clean_name"),
    ("legal_name", ← pyGet a "legal_business_name"),
    ("dba_name", ← pyGet a "dba_name"),
    ("division_name", ← pyGet a "division_name"),
    ("cage_code", ← pyGet a "cage_code"),
    ("uei", ← pyGet a "uei"),
    ("duns", ← pyGet a "duns"),
    ("address", .obj [
      ("line1", ← pyGet a "physical_address_line_1"),
      ("line2", ← pyGet a "physical_address_line_2"),
      ("city", ← pyGet a "physical_address_city"),
      ("state", ← pyGet a "physical_address_province_or_state"),
      ("zip", ← pyGet a "physical_address_zip_postal_code"),
      ("country", ← pyGet a "physical_address_country_code")]),
    ("mailing_address", .obj [
      ("line1", ← pyGet a "mailing_address_line_1"),
      ("line2", ← pyGet a "mailing_address_line_2"),
      ("city", ← pyGet a "mailing_address_city"),
      ("state", ← pyGet a "mailing_address_province_or_state"),
      ("zip", ← pyGet a "mailing_address_zip_postal_code"),
      ("country", ← pyGet a "mailing_address_country_code")]),
    ("website", ← pyGet a "website"),
    ("company_info", .obj [
      ("year_founded", ← pyGet a "year_founded"),
      ("employee_count", ← pyGet a "employee_count"),
      ("entity_type", ← pyGet a "entity_type"),
      ("organization_type", ← pyGet a "organization_type"),
      ("state_of_incorporation", ← pyGet a "state_of_incorporation"),
      ("country_of_incorporation", ← pyGet a "country_of_incorporation")]),
    ("naics_codes", .obj [
      ("primary", resolveElem "naics_code" primary_naics_obj),
      ("primary_description",
        if primary_naics_obj.isObj then objGet primary_naics_obj "naics_title"
        else .null),
      ("all_codes", .arr (naicsElems.map (resolveElem "naics_code")))]),
    ("psc_codes", .arr (pscElems.map (resolveElem "psc_code"))),
    ("certifications", .obj [
      ("all", .arr certs.1),
      ("sba_certified", .arr certs.2.1),
      ("self_certified", .arr certs.2.2)]),
    ("parent_company",
      if parent.truthy then
        .obj [("awardee_key", objGet parent "awardee_key"),
              ("name", objGet parent "clean_name"),
              ("cage_code", objGet parent "cage_code")]
      else .null),
    ("registration", .obj [
      ("purpose", ← pyGet a "purpose_of_registration"),
      ("initial_date", ← pyGet a "initial_registration_date"),
      ("activation_date", ← pyGet a "activation_date"),
      ("expiration_date", ← pyGet a "registration_expiration_date"),
      ("last_update", ← pyGet a "registration_last_update_date"),
      ("sam_extract_code", ← pyGet a "sam_extract_code")]),
    ("govt_business_poc", .obj [
      ("first_name", ← pyGet a "govt_bus_poc_first_name"),
      ("last_name", ← pyGet a "govt_bus_poc_last_name"),
      ("title", ← pyGet a "govt_bus_poc_title"),
      ("phone", ← pyGet a "govt_bus_poc_phone"),
      ("email", ← pyGet a "govt_bus_poc_email")]),
    ("highergov_url", ← pyGet a "path")]

/-- `get_awardee_details` lines 424-520 after the upstream response arrives:
an empty (or missing, or falsy) result list yields the not-found object;
otherwise only `results[0]` is normalized and wrapped. -/
def get_awardee_details_phase2 (data : JVal) : Except String JVal := do
  let results ← pyGetD data "results" (.arr [])
  if !results.truthy then
    return .obj [("error", .str "Awardee not found"), ("awardee", .null)]
  else
    let a ← pyIndexZero results
    let aw ← normalize_awardee_detail a
    return .obj [("awardee", aw)]

/-! ## Envelope construction -/

/-- Lines 119, 209, 284, 390, 566, 642, 690, 741, 780, 821:
`data.get("meta", {}).get("total_count", 0)`. -/
def meta_total_count (data : JVal) : Except String JVal := do
  let m ← pyGetD data "meta" (.obj [])
  pyGetD m "total_count" (.num 0)

/-- `search_opportunities` lines 118-123: the only envelope that also echoes
page_size. -/
def opportunities_envelope (data : JVal) (page_number page_size : Int)
    (records : List JVal) : Except String JVal := do
  return .obj [
    ("total_count", ← meta_total_count data),
    ("page", .num page_number),
    ("page_size", .num page_size),
    ("opportunities", .arr records)]

/-- `search_contracts` lines 208-212. -/
def contracts_envelope (data : JVal) (page_number : Int)
    (records : List JVal) : Except String JVal := do
  return .obj [
    ("total_count", ← meta_total_count data),
    ("page", .num page_number),
    ("contracts", .arr records)]

/-- `search_grants` lines 283-287. -/
def grants_envelope (data : JVal) (page_number : Int)
    (records : List JVal) : Except String JVal := do
  return .obj [
    ("total_count", ← meta_total_count data),
    ("page", .num page_number),
    ("grants", .arr records)]

/-- `search_awardees` lines 389-393 and `search_awardees_by_name` lines
565-569: one identical literal. -/
def awardees_envelope (data : JVal) (page_number : Int)
    (records : List JVal) : Except String JVal := do
  return .obj [
    ("total_count", ← meta_total_count data),
    ("page", .num page_number),
    ("awardees", .arr records)]

/-- `search_people` lines 689-693. -/
def people_envelope (data : JVal) (page_number : Int)
    (records : List JVal) : Except String JVal := do
  return .obj [
    ("total_count", ← meta_total_count data),
    ("page", .num page_number),
    ("people", .arr records)]

/-- `search_contract_vehicles` lines 740-744. -/
def vehicles_envelope (data : JVal) (page_number : Int)
    (records : List JVal) : Except String JVal := do
  return .obj [
    ("total_count", ← meta_total_count data),
    ("page", .num page_number),
    ("vehicles", .arr records)]

/-- `get_awardee_certifications` lines 641-644: no page field. -/
def certifications_envelope (data : JVal)
    (records : List JVal) : Except String JVal := do
  return .obj [
    ("total_count", ← meta_total_count data),
    ("awardees", .arr records)]

/-- `get_documents` lines 779-782: no page field. -/
def documents_envelope (data : JVal)
    (records : List JVal) : Except String JVal := do
  return .obj [
    ("total_count", ← meta_total_count data),
    ("documents", .arr records)]

/-- `search_agencies` lines 820-823: no page field. -/
def agencies_envelope (data : JVal)
    (records : List JVal) : Except String JVal := do
  return .obj [
    ("total_count", ← meta_total_count data),
    ("agencies", .arr records)]

/-- Read field `k` from a computation that produced a record. -/
def extractField (e : Except String JVal) (k : String) : Except String JVal :=
  e.bind (fun v => pyGet v k)

/-- The keys of a record, in order. -/
def objKeys : JVal → List String
  | .obj o => o.map (fun p => p.1)
  | _ => []

end HG

namespace HG

/-- Objects among a list of values, in order (the `isinstance(bt, dict)` filter). -/
def objsOf (l : List JVal) : List JObj :=
  l.filterMap (fun v => match v with | .obj o => some o | _ => none)

/-- The bucketing test of the certification loops. -/
def flagT (o : JObj) : Bool := (jget o "cert_flag").truthy

/-- The description field of a raw certification entry. -/
def descOf (o : JObj) : JVal := jget o "bus_type_description"

theorem lookup_append_some {α β : Type} [BEq α] {k : α} {l1 l2 : List (α × β)} {v : β}
    (h : List.lookup k l1 = some v) : List.lookup k (l1 ++ l2) = some v := by
  induction l1 with
  | nil => simp [List.lookup] at h
  | cons p rest ih =>
    obtain ⟨a, b⟩ := p
    rw [List.cons_append, List.lookup_cons] at *
    cases hb : (k == a) with
    | true => simp [hb] at h ⊢; exact h
    | false => simp [hb] at h ⊢; exact ih h

theorem lookup_hg_filter {k : String} {l : List (String × JVal)} {v : JVal}
    (h : List.lookup k l = some v) (hv : v.isNull = false) :
    List.lookup k (hg_filter l) = some v := by
  induction l with
  | nil => simp [List.lookup] at h
  | cons p rest ih =>
    obtain ⟨a, b⟩ := p
    rw [List.lookup_cons] at h
    unfold hg_filter at *
    rw [List.filter_cons]
    cases hb : (k == a) with
    | true =>
      simp only [hb] at h
      cases h
      simp [hv]
      rw [List.lookup_cons]
      simp [hb]
    | false =>
      simp only [hb] at h
      split
      · rw [List.lookup_cons]; simp [hb]; exact ih h
      · exact ih h

theorem lookup_hg_params {k : String} {l : List (String × JVal)} {v : JVal}
    (key : String) (h : List.lookup k l = some v) (hv : v.isNull = false) :
    List.lookup k (hg_params l key) = some v :=
  lookup_append_some (lookup_hg_filter h hv)

theorem dropWhile_head_false {α : Type} {p : α → Bool} {l : List α} {a : α} {t : List α}
    (h : l.dropWhile p = a :: t) : p a = false := by
  have hne : l.dropWhile p ≠ [] := by simp [h]
  have h2 := List.head_dropWhile_not p l hne
  have h3 : (l.dropWhile p).head hne = a := by simp [h]
  rwa [h3] at h2

theorem process_certs_eq (l : List JVal) :
    process_certs l = ((objsOf l).map cert_record,
      ((objsOf l).filter flagT).map descOf,
      ((objsOf l).filter (fun o => !flagT o)).map descOf) := by
  induction l with
  | nil => rfl
  | cons v rest ih =>
    cases v with
    | obj o =>
      by_cases hf : (jget o "cert_flag").truthy <;>
        simp [process_certs, ih, objsOf, flagT, descOf, List.filter_cons,
          List.filterMap_cons, hf]
    | null => simpa [process_certs, objsOf, List.filterMap_cons] using ih
    | bool b => simpa [process_certs, objsOf, List.filterMap_cons] using ih
    | num n => simpa [process_certs, objsOf, List.filterMap_cons] using ih
    | str s => simpa [process_certs, objsOf, List.filterMap_cons] using ih
    | arr a => simpa [process_certs, objsOf, List.filterMap_cons] using ih

theorem search_awardees_certs_eq (l : List JVal) :
    search_awardees_certs l = (process_certs l).1 := by
  induction l with
  | nil => rfl
  | cons v rest ih =>
    cases v <;> simp [search_awardees_certs, process_certs, ih]

end HG

namespace HG

/-- Claim C1, counterexample: `search_awardees` follows neither of the two
policies the claim allows. With the entire semantic filter set absent it
neither returns an error result nor substitutes the current date into any
date filter: the upstream query it builds carries only page_number,
page_size and the API key, and in particular no
registration_last_update_date (its primary date filter). -/
theorem searchAwardees_no_filter_neither_policy :
    hg_params (search_awardees_query none none none none none none 1 25) "KEY" =
      [("page_number", .num 1), ("page_size", .num 25), ("api_key", .str "KEY")]
    ∧ List.lookup "registration_last_update_date"
        (hg_params (search_awardees_query none none none none none none 1 25) "KEY") = none :=
  ⟨rfl, rfl⟩

/-- Claim C1, amended: with the entire semantic filter set absent,
`search_opportunities` applies the default policy (captured_date becomes
the current date and the call proceeds); `search_contracts`,
`search_grants` and `get_awardee_details` apply the reject policy
(a structured result with a populated error message, and for the two
searches an empty result list); `search_awardees` applies neither policy
and proceeds with an unfiltered query. -/
theorem missing_filter_policies :
    (∀ (pn ps : Int) (t : String),
      List.lookup "captured_date"
        (search_opportunities_query none none none none none none none pn ps t) = some (.str t))
    ∧ (∀ pn ps : Int,
        search_contracts_phase1 none none none none none none none none none pn ps =
          .error (.obj [("error", .str "At least one filter parameter is required"),
                        ("contracts", .arr [])]))
    ∧ (∀ pn ps : Int,
        search_grants_phase1 none none none none none none none pn ps =
          .error (.obj [("error", .str "At least one filter parameter is required"),
                        ("grants", .arr [])]))
    ∧ get_awardee_details_phase1 none none none =
        .error (.obj [("error",
          .str "At least one identifier required: awardee_key, cage_code, or uei")])
    ∧ (∀ (pn ps : Int) (k : String),
        hg_params (search_awardees_query none none none none none none pn ps) k =
          [("page_number", .num pn), ("page_size", .num (min ps 100)), ("api_key", .str k)]) :=
  ⟨fun _ _ _ => rfl, fun _ _ => rfl, fun _ _ => rfl, rfl, fun _ _ _ => rfl⟩

/-- Claim C2, counterexample: in `search_opportunities` the nested NAICS
field is read with an unguarded `.get`, so normalizing a record whose
naics_code is the bare scalar "541512" raises an AttributeError instead of
resolving to "541512". -/
theorem opportunity_scalar_naics_raises :
    normalize_opportunity (.obj [("naics_code", .str "541512")]) = .error "AttributeError" := rfl

/-- Claim C2, amended: in `search_contracts`, whose NAICS/PSC extraction is
guarded by an isinstance check, the bare scalar "541512" and the object
shape resolve to the identical value "541512", and an absent field yields
null with no error; in `search_opportunities` the object shape resolves to
"541512" but the bare scalar raises an AttributeError, so shape ambiguity
is only handled in the operations that guard for it. -/
theorem code_field_shape_resolution :
    normalize_contract (.obj [("naics_code", .str "541512"), ("psc_code", .str "D399")]) =
      normalize_contract (.obj [("naics_code", .obj [("naics_code", .str "541512")]),
        ("psc_code", .obj [("psc_code", .str "D399")])])
    ∧ extractField (normalize_contract (.obj [("naics_code", .str "541512")])) "naics_code" =
        .ok (.str "541512")
    ∧ extractField (normalize_contract
        (.obj [("naics_code", .obj [("naics_code", .str "541512")])])) "naics_code" =
        .ok (.str "541512")
    ∧ extractField (normalize_contract (.obj [])) "naics_code" = .ok .null
    ∧ (∀ v : JVal, resolveElem "naics_code" (.obj [("naics_code", v)]) = v)
    ∧ normalize_opportunity (.obj [("naics_code", .str "541512")]) = .error "AttributeError"
    ∧ extractField (normalize_opportunity
        (.obj [("naics_code", .obj [("naics_code", .str "541512")])])) "naics_code" =
        .ok (.str "541512") :=
  ⟨rfl, rfl, rfl, rfl, fun _ => rfl, rfl, rfl⟩

/-- Claim C3, counterexample: the `get_documents` envelope contains no page
field at all. With upstream metadata carrying total_count 137 and an
embedded page value 99, the envelope holds exactly the keys total_count
and documents — the requested page_number (for example 3) is not echoed
anywhere, contradicting the claim for this paginated operation. -/
theorem documents_envelope_has_no_page :
    documents_envelope (.obj [("meta", .obj [("total_count", .num 137), ("page", .num 99)])]) [] =
      .ok (.obj [("total_count", .num 137), ("documents", .arr [])])
    ∧ objKeys (.obj [("total_count", .num 137), ("documents", .arr [])]) =
        ["total_count", "documents"] :=
  ⟨rfl, rfl⟩

/-- Claim C3, amended: every envelope reports total_count read from the
upstream meta block, defaulting to 0 when the block or the field is
absent. The envelopes of `search_opportunities`, `search_contracts`,
`search_grants`, `search_awardees`, `search_awardees_by_name`,
`search_people` and `search_contract_vehicles` also report page equal to
the requested page_number regardless of the upstream payload; the
envelopes of `get_documents`, `get_awardee_certifications` and
`search_agencies` carry no page field. -/
theorem envelope_page_and_total :
    (∀ (data : JVal) (pn ps : Int) (recs : List JVal) (t : JVal),
      meta_total_count data = .ok t →
        extractField (opportunities_envelope data pn ps recs) "total_count" = .ok t
        ∧ extractField (opportunities_envelope data pn ps recs) "page" = .ok (.num pn))
    ∧ (∀ (data : JVal) (pn : Int) (recs : List JVal) (t : JVal),
      meta_total_count data = .ok t →
        extractField (contracts_envelope data pn recs) "total_count" = .ok t
        ∧ extractField (contracts_envelope data pn recs) "page" = .ok (.num pn))
    ∧ (∀ (data : JVal) (pn : Int) (recs : List JVal) (t : JVal),
      meta_total_count data = .ok t →
        extractField (grants_envelope data pn recs) "total_count" = .ok t
        ∧ extractField (grants_envelope data pn recs) "page" = .ok (.num pn))
    ∧ (∀ (data : JVal) (pn : Int) (recs : List JVal) (t : JVal),
      meta_total_count data = .ok t →
        extractField (awardees_envelope data pn recs) "total_count" = .ok t
        ∧ extractField (awardees_envelope data pn recs) "page" = .ok (.num pn))
    ∧ (∀ (data : JVal) (pn : Int) (recs : List JVal) (t : JVal),
      meta_total_count data = .ok t →
        extractField (people_envelope data pn recs) "total_count" = .ok t
        ∧ extractField (people_envelope data pn recs) "page" = .ok (.num pn))
    ∧ (∀ (data : JVal) (pn : Int) (recs : List JVal) (t : JVal),
      meta_total_count data = .ok t →
        extractField (vehicles_envelope data pn recs) "total_count" = .ok t
        ∧ extractField (vehicles_envelope data pn recs) "page" = .ok (.num pn))
    ∧ (∀ (data : JVal) (recs : List JVal) (t : JVal),
      meta_total_count data = .ok t →
        documents_envelope data recs = .ok (.obj [("total_count", t), ("documents", .arr recs)]))
    ∧ (∀ (data : JVal) (recs : List JVal) (t : JVal),
      meta_total_count data = .ok t →
        certifications_envelope data recs =
          .ok (.obj [("total_count", t), ("awardees", .arr recs)]))
    ∧ (∀ (data : JVal) (recs : List JVal) (t : JVal),
      meta_total_count data = .ok t →
        agencies_envelope data recs = .ok (.obj [("total_count", t), ("agencies", .arr recs)]))
    ∧ meta_total_count (.obj []) = .ok (.num 0)
    ∧ meta_total_count (.obj [("meta", .obj [])]) = .ok (.num 0)
    ∧ meta_total_count (.obj [("meta", .obj [("total_count", .num 137), ("page", .num 99)])]) =
        .ok (.num 137) := by
  refine ⟨?_, ?_, ?_, ?_, ?_, ?_, ?_, ?_, ?_, rfl, rfl, rfl⟩
  · intro data pn ps recs t h
    have he : opportunities_envelope data pn ps recs =
        .ok (.obj [("total_count", t), ("page", .num pn), ("page_size", .num ps),
          ("opportunities", .arr recs)]) := by
      unfold opportunities_envelope
      rw [h]
      rfl
    exact ⟨by rw [he]; rfl, by rw [he]; rfl⟩
  · intro data pn recs t h
    have he : contracts_envelope data pn recs =
        .ok (.obj [("total_count", t), ("page", .num pn), ("contracts", .arr recs)]) := by
      unfold contracts_envelope
      rw [h]
      rfl
    exact ⟨by rw [he]; rfl, by rw [he]; rfl⟩
  · intro data pn recs t h
    have he : grants_envelope data pn recs =
        .ok (.obj [("total_count", t), ("page", .num pn), ("grants", .arr recs)]) := by
      unfold grants_envelope
      rw [h]
      rfl
    exact ⟨by rw [he]; rfl, by rw [he]; rfl⟩
  · intro data pn recs t h
    have he : awardees_envelope data pn recs =
        .ok (.obj [("total_count", t), ("page", .num pn), ("awardees", .arr recs)]) := by
      unfold awardees_envelope
      rw [h]
      rfl
    exact ⟨by rw [he]; rfl, by rw [he]; rfl⟩
  · intro data pn recs t h
    have he : people_envelope data pn recs =
        .ok (.obj [("total_count", t), ("page", .num pn), ("people", .arr recs)]) := by
      unfold people_envelope
      rw [h]
      rfl
    exact ⟨by rw [he]; rfl, by rw [he]; rfl⟩
  · intro data pn recs t h
    have he : vehicles_envelope data pn recs =
        .ok (.obj [("total_count", t), ("page", .num pn), ("vehicles", .arr recs)]) := by
      unfold vehicles_envelope
      rw [h]
      rfl
    exact ⟨by rw [he]; rfl, by rw [he]; rfl⟩
  · intro data recs t h
    unfold documents_envelope
    rw [h]
    rfl
  · intro data recs t h
    unfold certifications_envelope
    rw [h]
    rfl
  · intro data recs t h
    unfold agencies_envelope
    rw [h]
    rfl

end HG

namespace HG

/-- Claim C4: for every operation that accepts a caller-supplied page_size
(all twelve of them) and for every value of it, the page_size actually
sent upstream — after the None-filtering and API-key injection of
`hg_get` — equals the minimum of the supplied value and 100. -/
theorem page_size_clamped :
    (∀ (cd pd : Option String) (ak : Option Int) (ok si st od : Option String)
       (pn ps : Int) (t key : String),
      List.lookup "page_size"
        (hg_params (search_opportunities_query cd pd ak ok si st od pn ps t) key) =
        some (.num (min ps 100)))
    ∧ (∀ (nc pc : Option String) (ak : Option Int) (au : Option String) (gk : Option Int)
       (ai si lm od : Option String) (pn ps : Int) (key : String),
      List.lookup "page_size"
        (hg_params (search_contracts_query nc pc ak au gk ai si lm od pn ps) key) =
        some (.num (min ps 100)))
    ∧ (∀ (ak : Option Int) (au cf : Option String) (gk : Option Int)
       (si lm od : Option String) (pn ps : Int) (key : String),
      List.lookup "page_size"
        (hg_params (search_grants_query ak au cf gk si lm od pn ps) key) =
        some (.num (min ps 100)))
    ∧ (∀ (cc uei : Option String) (pk : Option Int) (nn rd od : Option String)
       (pn ps : Int) (key : String),
      List.lookup "page_size"
        (hg_params (search_awardees_query cc uei pk nn rd od pn ps) key) =
        some (.num (min ps 100)))
    ∧ (∀ (name : String) (pn ps : Int) (key : String),
      List.lookup "page_size"
        (hg_params (search_awardees_by_name_query name pn ps) key) =
        some (.num (min ps 100)))
    ∧ (∀ (cc uei nn : Option String) (ps : Int) (key : String),
      List.lookup "page_size"
        (hg_params (get_awardee_certifications_query cc uei nn ps) key) =
        some (.num (min ps 100)))
    ∧ (∀ (ln : Option String) (ak : Option Int) (pn ps : Int) (key : String),
      List.lookup "page_size"
        (hg_params (search_people_query ln ak pn ps) key) =
        some (.num (min ps 100)))
    ∧ (∀ (vn : Option String) (ak : Option Int) (nc : Option String)
       (pn ps : Int) (key : String),
      List.lookup "page_size"
        (hg_params (search_contract_vehicles_query vn ak nc pn ps) key) =
        some (.num (min ps 100)))
    ∧ (∀ (rk : String) (pn ps : Int) (key : String),
      List.lookup "page_size"
        (hg_params (get_documents_query rk pn ps) key) =
        some (.num (min ps 100)))
    ∧ (∀ (ak : Option Int) (pn ps : Int) (key : String),
      List.lookup "page_size"
        (hg_params (search_agencies_query ak pn ps) key) =
        some (.num (min ps 100)))
    ∧ (∀ (nc : Option String) (ps : Int) (key : String),
      List.lookup "page_size"
        (hg_params (lookup_naics_query nc ps) key) =
        some (.num (min ps 100)))
    ∧ (∀ (pc : Option String) (ps : Int) (key : String),
      List.lookup "page_size"
        (hg_params (lookup_psc_query pc ps) key) =
        some (.num (min ps 100))) :=
  ⟨fun _ _ _ _ _ _ _ _ _ _ key => lookup_hg_params key rfl rfl,
   fun _ _ _ _ _ _ _ _ _ _ _ key => lookup_hg_params key rfl rfl,
   fun _ _ _ _ _ _ _ _ _ key => lookup_hg_params key rfl rfl,
   fun _ _ _ _ _ _ _ _ key => lookup_hg_params key rfl rfl,
   fun _ _ _ key => lookup_hg_params key rfl rfl,
   fun _ _ _ _ key => lookup_hg_params key rfl rfl,
   fun _ _ _ _ key => lookup_hg_params key rfl rfl,
   fun _ _ _ _ _ key => lookup_hg_params key rfl rfl,
   fun _ _ _ key => lookup_hg_params key rfl rfl,
   fun _ _ _ key => lookup_hg_params key rfl rfl,
   fun _ _ key => lookup_hg_params key rfl rfl,
   fun _ _ key => lookup_hg_params key rfl rfl⟩

/-- Claim C5: the certification loop buckets every entry of the full list
into exactly one of the two derived views — the description goes to the
SBA-certified view when the cert_flag is truthy and to the self-certified
view otherwise — and the two views together are a permutation of the
descriptions of the full list (no duplication, no omission). On the
record list with HUBZone flagged true and WOSB flagged false the views
are exactly the HUBZone and WOSB singletons. -/
theorem certification_buckets_partition :
    (∀ l : List JVal, (process_certs l).1 = (objsOf l).map cert_record)
    ∧ (∀ l : List JVal, (process_certs l).2.1 = ((objsOf l).filter flagT).map descOf)
    ∧ (∀ l : List JVal,
        (process_certs l).2.2 = ((objsOf l).filter (fun o => !flagT o)).map descOf)
    ∧ (∀ l : List JVal,
        List.Perm ((process_certs l).2.1 ++ (process_certs l).2.2)
          ((process_certs l).1.map (fun c => objGet c "description")))
    ∧ process_certs
        [.obj [("bus_type_description", .str "HUBZone"), ("cert_flag", .bool true)],
         .obj [("bus_type_description", .str "WOSB"), ("cert_flag", .bool false)]] =
      ([.obj [("type", .null), ("description", .str "HUBZone"), ("sba_certified", .bool true)],
        .obj [("type", .null), ("description", .str "WOSB"), ("sba_certified", .bool false)]],
       [.str "HUBZone"], [.str "WOSB"]) := by
  refine ⟨fun l => by rw [process_certs_eq], fun l => by rw [process_certs_eq],
    fun l => by rw [process_certs_eq], fun l => ?_, rfl⟩
  rw [process_certs_eq]
  have hc : (fun c => objGet c "description") ∘ cert_record = descOf := funext fun o => rfl
  rw [List.map_map, hc, ← List.map_append]
  exact (List.filter_append_perm flagT (objsOf l)).map descOf

/-- Claim C6: the composite contact name joins the first and last parts
with a single space and strips: empty first with last "Smith" gives
exactly "Smith" with no leading space; both parts empty give null; and no
input whatsoever produces an empty string or a lone space as the name. -/
theorem contact_composite_name :
    govt_poc_name "" "Smith" = .str "Smith"
    ∧ govt_poc_name "John" "" = .str "John"
    ∧ govt_poc_name "John" "Smith" = .str "John Smith"
    ∧ govt_poc_name "" "" = .null
    ∧ (∀ f l : String, govt_poc_name f l ≠ .str "")
    ∧ (∀ f l : String, govt_poc_name f l ≠ .str " ") := by
  refine ⟨rfl, rfl, rfl, rfl, fun f l h => ?_, fun f l h => ?_⟩
  · simp only [govt_poc_name] at h
    split at h
    · exact JVal.noConfusion h
    · next hcond =>
      injection h with hs
      exact hcond (by rw [hs]; rfl)
  · simp only [govt_poc_name] at h
    split at h
    · exact JVal.noConfusion h
    · injection h with hs
      have hd2 : py_strip_list (f ++ " " ++ l).toList = [' '] := by
        have := congrArg String.data hs
        exact this
      have h3 : ((f ++ " " ++ l).toList.dropWhile Char.isWhitespace).reverse.dropWhile
          Char.isWhitespace = [' '] := by
        have := congrArg List.reverse hd2
        simpa [py_strip_list] using this
      have h4 := dropWhile_head_false h3
      exact absurd h4 (by decide)

/-- Claim C7: the parameter filter of `hg_get` keeps exactly the pairs
whose value is not None, so an absent filter contributes no key to the
outgoing mapping and present values — including falsy ones such as 0 —
are all forwarded. -/
theorem absent_filters_not_sent :
    (∀ (l : List (String × JVal)) (k : String) (v : JVal),
      ((k, v) ∈ hg_filter l ↔ (k, v) ∈ l ∧ v.isNull = false))
    ∧ hg_filter [("a", .null), ("b", .str "x"), ("c", .num 0)] = [("b", .str "x"), ("c", .num 0)]
    ∧ hg_params [("a", .null)] "KEY" = [("api_key", .str "KEY")] := by
  refine ⟨fun l k v => ?_, rfl, rfl⟩
  simp [hg_filter, List.mem_filter]

/-- Claim C8: every normalized document record carries the upstream
download_url value unchanged, carries the fixed static note that the URL
expires in 60 minutes, and consists of exactly the five fields filename,
file_type, file_size, download_url and note — no computed expiry
timestamp is attached. -/
theorem document_url_passthrough :
    (∀ o : JObj,
      extractField (normalize_document (.obj o)) "download_url" = .ok (jget o "download_url"))
    ∧ (∀ o : JObj,
      extractField (normalize_document (.obj o)) "note" = .ok (.str "URL expires in 60 minutes"))
    ∧ (∀ o : JObj,
      Except.map objKeys (normalize_document (.obj o)) =
        .ok ["filename", "file_type", "file_size", "download_url", "note"]) :=
  ⟨fun _ => rfl, fun _ => rfl, fun _ => rfl⟩

/-- Claim C9: `get_awardee_details` reports failures as structured results.
With no identifier it returns, before any upstream request, an object with
only an error message; whenever it does build a query the query fixes
page_size to 1; an empty (or missing) upstream result list yields the
object with error "Awardee not found" and a null awardee; and a non-empty
result list is processed identically to the list holding only its first
element — only the first result is normalized. -/
theorem awardee_details_structured_errors :
    get_awardee_details_phase1 none none none =
      .error (.obj [("error",
        .str "At least one identifier required: awardee_key, cage_code, or uei")])
    ∧ (∀ (ak : Option Int) (cc uei : Option String) (q : List (String × JVal)),
        get_awardee_details_phase1 ak cc uei = .ok q →
          List.lookup "page_size" q = some (.num 1))
    ∧ get_awardee_details_phase2 (.obj []) =
        .ok (.obj [("error", .str "Awardee not found"), ("awardee", .null)])
    ∧ get_awardee_details_phase2 (.obj [("results", .arr [])]) =
        .ok (.obj [("error", .str "Awardee not found"), ("awardee", .null)])
    ∧ (∀ (r : JVal) (rest : List JVal),
        get_awardee_details_phase2 (.obj [("results", .arr (r :: rest))]) =
          get_awardee_details_phase2 (.obj [("results", .arr [r])])) := by
  refine ⟨rfl, fun ak cc uei q h => ?_, rfl, rfl, fun r rest => rfl⟩
  unfold get_awardee_details_phase1 at h
  split at h
  · exact Except.noConfusion h
  · cases h
    rfl

/-- Claim C10: a certification-list element that is not a dict is silently
dropped from the full list and from both derived views; a dict element
lacking the cert_flag key gets sba_certified false in its record and its
description lands in the self-certified view; and the certification list
built by `search_awardees` coincides with the full list of the other two
certification loops. -/
theorem certification_element_defaults :
    (∀ (pre post : List JVal) (v : JVal), v.isObj = false →
        process_certs (pre ++ v :: post) = process_certs (pre ++ post))
    ∧ (∀ (o : JObj) (l : List JVal), jfind o "cert_flag" = none →
        process_certs (.obj o :: l) =
          (cert_record o :: (process_certs l).1, (process_certs l).2.1,
           jget o "bus_type_description" :: (process_certs l).2.2)
        ∧ objGet (cert_record o) "sba_certified" = .bool false)
    ∧ (∀ l : List JVal, search_awardees_certs l = (process_certs l).1) := by
  refine ⟨fun pre post v hv => ?_, fun o l h => ⟨?_, ?_⟩, search_awardees_certs_eq⟩
  · rw [process_certs_eq, process_certs_eq]
    have hobjs : objsOf (pre ++ v :: post) = objsOf (pre ++ post) := by
      unfold objsOf
      rw [List.filterMap_append, List.filterMap_append, List.filterMap_cons]
      cases v <;> simp_all [JVal.isObj]
    rw [hobjs]
  · have hflag : jget o "cert_flag" = .null := by simp [jget, jgetD, h]
    simp [process_certs, hflag, JVal.truthy]
  · show jgetD o "cert_flag" (.bool false) = .bool false
    simp [jgetD, h]

end HG
